import Mathlib

/-!
Shallow embedding of the MagnifyingMed scoring engine (`src/scoring.py`,
`src/config.py`) and of its conversation routing logic
(`src/conversation_handler.py`, `src/context_manager.py`).

Modelling conventions:
* Python dicts with optional keys become structures with `Option` fields;
  `dict.get(key, default)` becomes `Option.getD`.
* Python floats become rationals (`ℚ`); `round(x, 3)` becomes decimal
  rounding to three places with ties to even (`round3` below).
* The `drivers` field carries the selected `(dimension, score)` pairs; the
  source renders each selected pair to a prose sentence via
  `_get_driver_description`, which only formats the same pair and the
  summary counts into text and plays no role in selection or ordering.
* LLM calls are external collaborators: their outcomes enter the model as
  explicit `Except`-valued parameters.
-/

/-! ## Configuration constants (`src/config.py`) -/

def BIAS_SCORE_THRESHOLD : ℚ := 30/100

def MIN_SOURCES_FOR_FLAG : ℚ := 2

def TARGET_DARK_SKIN_PROPORTION : ℚ := 25/100

/-- Weight configuration for the Under-Explored Bias Score (`config.SCORE_WEIGHTS`),
kept as an association list in the dict's insertion order. -/
def SCORE_WEIGHTS : List (String × ℚ) :=
  [("race_label_availability", 15/100),
   ("dark_skin_representation", 25/100),
   ("subgroup_metrics", 20/100),
   ("geographic_concentration", 15/100),
   ("fairness_method_coverage", 15/100),
   ("external_validation", 10/100)]

/-! ## Findings dictionaries (inputs of `BiasScorer`) -/

/-- The `summary` sub-dict of a dataset-composition analysis. -/
structure DatasetSummary where
  total_datasets : Option ℚ
  datasets_with_race_labels : Option ℚ
  avg_dark_skin_proportion : Option ℚ
  avg_minority_representation : Option ℚ
  geographic_diversity : Option String
deriving DecidableEq

def emptyDatasetSummary : DatasetSummary := ⟨none, none, none, none, none⟩

/-- A dataset-composition analysis dict (only the keys the scorer reads). -/
structure DatasetAnalysis where
  summary : Option DatasetSummary
deriving DecidableEq

/-- Models `dataset_analysis.get("summary", {})`. -/
def DatasetAnalysis.getSummary (da : DatasetAnalysis) : DatasetSummary :=
  da.summary.getD emptyDatasetSummary

/-- The `summary` sub-dict of a subgroup-performance analysis. -/
structure SubgroupSummary where
  total_studies : Option ℚ
  studies_with_subgroup_metrics : Option ℚ
deriving DecidableEq

def emptySubgroupSummary : SubgroupSummary := ⟨none, none⟩

/-- A subgroup-performance analysis dict. -/
structure SubgroupAnalysis where
  summary : Option SubgroupSummary
  no_subgroup_reporting : Option ℚ
deriving DecidableEq

/-- Models `subgroup_analysis.get("summary", {})`. -/
def SubgroupAnalysis.getSummary (sa : SubgroupAnalysis) : SubgroupSummary :=
  sa.summary.getD emptySubgroupSummary

/-- The `validation` sub-dict of a mitigation/validation analysis. -/
structure ValidationInfo where
  geographic_diversity : Option String
deriving DecidableEq

def emptyValidationInfo : ValidationInfo := ⟨none⟩

/-- The `summary` sub-dict of a mitigation/validation analysis. -/
structure MitigationSummary where
  total_studies : Option ℚ
  studies_with_fairness_methods : Option ℚ
  studies_with_external_validation : Option ℚ
deriving DecidableEq

def emptyMitigationSummary : MitigationSummary := ⟨none, none, none⟩

/-- A mitigation/validation analysis dict. -/
structure MitigationAnalysis where
  summary : Option MitigationSummary
  validation : Option ValidationInfo
deriving DecidableEq

/-- Models `mitigation_analysis.get("summary", {})`. -/
def MitigationAnalysis.getSummary (ma : MitigationAnalysis) : MitigationSummary :=
  ma.summary.getD emptyMitigationSummary

/-- Models `mitigation_analysis.get("validation", {})`. -/
def MitigationAnalysis.getValidation (ma : MitigationAnalysis) : ValidationInfo :=
  ma.validation.getD emptyValidationInfo

/-! ## Component scorers (`scoring.py` lines 26-175) -/

/-- `BiasScorer.compute_race_label_score`. -/
def compute_race_label_score (dataset_analysis : DatasetAnalysis) : ℚ :=
  let summary := dataset_analysis.getSummary
  let total := summary.total_datasets.getD 0
  let with_labels := summary.datasets_with_race_labels.getD 0
  if total = 0 then 1
  else
    let missing_ratio := 1 - with_labels / total
    min missing_ratio 1

/-- `BiasScorer.compute_dark_skin_representation_score`. -/
def compute_dark_skin_representation_score (dataset_analysis : DatasetAnalysis) : ℚ :=
  let summary := dataset_analysis.getSummary
  match summary.avg_dark_skin_proportion with
  | some avg_dark_skin_prop =>
    if avg_dark_skin_prop ≥ TARGET_DARK_SKIN_PROPORTION then 0
    else
      let gap := TARGET_DARK_SKIN_PROPORTION - avg_dark_skin_prop
      let max_gap := TARGET_DARK_SKIN_PROPORTION
      let score := if max_gap > 0 then gap / max_gap else 1
      min score 1
  | none =>
    let avg_minority_rep := summary.avg_minority_representation.getD 0
    let target_minority : ℚ := 25/100
    if avg_minority_rep ≥ target_minority then 0
    else
      let gap := target_minority - avg_minority_rep
      let max_gap := target_minority
      let score := if max_gap > 0 then gap / max_gap else 1
      min score 1

/-- `BiasScorer.compute_subgroup_metrics_score`. -/
def compute_subgroup_metrics_score (subgroup_analysis : SubgroupAnalysis) : ℚ :=
  let summary := subgroup_analysis.getSummary
  let total := summary.total_studies.getD 0
  let with_metrics := summary.studies_with_subgroup_metrics.getD 0
  let no_reporting := subgroup_analysis.no_subgroup_reporting.getD 0
  if total = 0 then 1
  else
    let missing_ratio :=
      if no_reporting > 0 then no_reporting / total else 1 - with_metrics / total
    min missing_ratio 1

/-- Python `str.lower()` (character-wise lower-casing, written with a
structurally recursive `List.map` so that terms evaluate). -/
def pyLower (s : String) : String := ⟨s.data.map Char.toLower⟩

/-- Python `str.strip()`: remove leading and trailing whitespace. -/
def pyStrip (s : String) : String :=
  ⟨((s.data.dropWhile Char.isWhitespace).reverse.dropWhile Char.isWhitespace).reverse⟩

/-- The categorical `diversity_map` lookup `{"low": 1.0, "medium": 0.5, "high": 0.0}`
with default `1.0`, applied to the lower-cased label. -/
def diversityMapGet (label : String) : ℚ :=
  let l := pyLower label
  if l = "low" then 1
  else if l = "medium" then 1/2
  else if l = "high" then 0
  else 1

/-- `BiasScorer.compute_geographic_concentration_score`. -/
def compute_geographic_concentration_score (dataset_analysis : DatasetAnalysis)
    (mitigation_analysis : MitigationAnalysis) : ℚ :=
  let geo_diversity := dataset_analysis.getSummary.geographic_diversity.getD "low"
  let val_geo_diversity := mitigation_analysis.getValidation.geographic_diversity.getD "low"
  let dataset_score := diversityMapGet geo_diversity
  let val_score := diversityMapGet val_geo_diversity
  (dataset_score + val_score) / 2

/-- `BiasScorer.compute_fairness_method_score`. -/
def compute_fairness_method_score (mitigation_analysis : MitigationAnalysis) : ℚ :=
  let summary := mitigation_analysis.getSummary
  let total := summary.total_studies.getD 0
  let with_methods := summary.studies_with_fairness_methods.getD 0
  if total = 0 then 1
  else
    let missing_ratio := 1 - with_methods / total
    min missing_ratio 1

/-- `BiasScorer.compute_external_validation_score`. -/
def compute_external_validation_score (mitigation_analysis : MitigationAnalysis) : ℚ :=
  let summary := mitigation_analysis.getSummary
  let total := summary.total_studies.getD 0
  let with_validation := summary.studies_with_external_validation.getD 0
  if total = 0 then 1
  else
    let missing_ratio := 1 - with_validation / total
    min missing_ratio 1

/-! ## BiasScorer construction and aggregation (`scoring.py` lines 16-24, 177-238) -/

structure BiasScorer where
  weights : List (String × ℚ)
  threshold : ℚ
deriving DecidableEq

/-- `dict.get(key, default)` on an association list (first binding wins, as in a dict). -/
def dictGet (l : List (String × ℚ)) (key : String) (default : ℚ) : ℚ :=
  ((l.find? (fun p => p.1 == key)).map Prod.snd).getD default

/-- `BiasScorer.__init__`.  Python's `weights or SCORE_WEIGHTS` treats both
`None` and the empty dict as falsy, and `threshold or BIAS_SCORE_THRESHOLD`
treats `0.0` as falsy; a `ValueError` becomes `Except.error`. -/
def BiasScorer.init (weights : Option (List (String × ℚ))) (threshold : Option ℚ) :
    Except String BiasScorer :=
  let w := match weights with
    | none => SCORE_WEIGHTS
    | some l => if l.isEmpty then SCORE_WEIGHTS else l
  let t := match threshold with
    | none => BIAS_SCORE_THRESHOLD
    | some x => if x = 0 then BIAS_SCORE_THRESHOLD else x
  let total_weight := (w.map Prod.snd).sum
  if |total_weight - 1| > 1/100 then Except.error "Weights must sum to 1.0"
  else Except.ok ⟨w, t⟩

/-- Nearest integer with ties to even, the rounding mode of Python's `round`. -/
def roundHalfEven (q : ℚ) : ℤ :=
  let f := ⌊q⌋
  let frac := q - f
  if frac < 1/2 then f
  else if frac > 1/2 then f + 1
  else if f % 2 = 0 then f else f + 1

/-- Python `round(x, 3)`, idealized to exact decimal rounding on rationals. -/
def round3 (q : ℚ) : ℚ := (roundHalfEven (q * 1000) : ℚ) / 1000

/-- Stable insertion of one `(dimension, score)` pair into a list kept in
descending score order: the new pair goes after all existing pairs of equal
score, matching the stability of Python's `sorted(..., reverse=True)`. -/
def insertDesc (p : String × ℚ) : List (String × ℚ) → List (String × ℚ)
  | [] => [p]
  | q :: rest => if q.2 ≥ p.2 then q :: insertDesc p rest else p :: q :: rest

/-- Stable descending sort by score, the model of
`sorted(breakdown.items(), key=lambda x: x[1], reverse=True)`. -/
def stableSortDesc (l : List (String × ℚ)) : List (String × ℚ) :=
  l.foldl (fun acc p => insertDesc p acc) []

/-- Result dict of `compute_bias_score` (`drivers` holds the selected
`(dimension, score)` pairs, see the module comment). -/
structure ScoreResult where
  score : ℚ
  threshold : ℚ
  flagged : Bool
  breakdown : List (String × ℚ)
  drivers : List (String × ℚ)
  confidence : String
deriving DecidableEq

/-- The six-dimension breakdown, in the dict's declaration order
(`scoring.py` lines 192-201). -/
def breakdownList (dataset_analysis : DatasetAnalysis) (subgroup_analysis : SubgroupAnalysis)
    (mitigation_analysis : MitigationAnalysis) : List (String × ℚ) :=
  [("race_label_availability", compute_race_label_score dataset_analysis),
   ("dark_skin_representation", compute_dark_skin_representation_score dataset_analysis),
   ("subgroup_metrics", compute_subgroup_metrics_score subgroup_analysis),
   ("geographic_concentration",
     compute_geographic_concentration_score dataset_analysis mitigation_analysis),
   ("fairness_method_coverage", compute_fairness_method_score mitigation_analysis),
   ("external_validation", compute_external_validation_score mitigation_analysis)]

/-- The weighted sum `sum(breakdown[key] * self.weights.get(key, 0.0) for key in breakdown)`. -/
def weighted_sum (weights breakdown : List (String × ℚ)) : ℚ :=
  (breakdown.map (fun p => p.2 * dictGet weights p.1 0)).sum

/-- `BiasScorer.compute_bias_score` (`scoring.py` lines 177-238). -/
def compute_bias_score (scorer : BiasScorer) (dataset_analysis : DatasetAnalysis)
    (subgroup_analysis : SubgroupAnalysis) (mitigation_analysis : MitigationAnalysis) :
    ScoreResult :=
  let breakdown := breakdownList dataset_analysis subgroup_analysis mitigation_analysis
  let total_score := (breakdown.map (fun p => p.2 * dictGet scorer.weights p.1 0)).sum
  let sorted_breakdown := stableSortDesc breakdown
  let drivers := (sorted_breakdown.take 3).filter (fun p => decide (p.2 > 1/2))
  let flagged := decide (total_score ≥ scorer.threshold)
  let total_sources :=
    dataset_analysis.getSummary.total_datasets.getD 0 +
    subgroup_analysis.getSummary.total_studies.getD 0 +
    mitigation_analysis.getSummary.total_studies.getD 0
  let confidence :=
    if total_sources ≥ MIN_SOURCES_FOR_FLAG then "high"
    else if total_sources > 0 then "medium"
    else "low"
  { score := round3 total_score
    threshold := scorer.threshold
    flagged := flagged
    breakdown := breakdown
    drivers := drivers
    confidence := confidence }

/-! ## String helpers modelling Python string operations -/

/-- Does `s` begin with `pat`?  (Model of Python `str.startswith` on char lists.) -/
def charsBeginWith : List Char → List Char → Bool
  | _, [] => true
  | [], _ :: _ => false
  | c :: s, p :: ps => c == p && charsBeginWith s ps

/-- Does `pat` occur inside `s`?  (Model of the Python `in` operator on strings.) -/
def charsHave : List Char → List Char → Bool
  | [], pat => pat.isEmpty
  | s@(_ :: t), pat => charsBeginWith s pat || charsHave t pat

/-- Python `pat in s` for strings. -/
def strHas (s pat : String) : Bool := charsHave s.data pat.data

/-- Python `s.startswith(pat)`. -/
def strStarts (s pat : String) : Bool := charsBeginWith s.data pat.data

/-- The apostrophe character, kept out of string literals. -/
def apostrophe : Char := Char.ofNat 39

/-- The literal deferral token spelled d-o-n-apostrophe-t. -/
def dontWord : String := "don" ++ String.singleton apostrophe ++ "t"

/-- The literal follow-up cue spelled t-h-a-t-apostrophe-s. -/
def thatsWord : String := "that" ++ String.singleton apostrophe ++ "s"

/-! ## ConversationContext (`src/context_manager.py`) -/

/-- `ContextManager` state: the `context` dict plus `conversation_history`
(as `(role, content)` pairs in order of appending). -/
structure ConvContext where
  medical_field : Option String
  specific_condition : Option String
  time_range : Option Nat
  bias_aspects : List String
  history : List (String × String)
deriving DecidableEq

def emptyConvContext : ConvContext := ⟨none, none, none, [], []⟩

/-- The field-keyword taxonomy of `ContextManager._extract_from_input`,
in the dict's iteration order. -/
def fieldKeywords : List (String × List String) :=
  [("dermatology", ["dermatology", "skin", "melanoma", "acne", "eczema", "dermatological", "skin cancer"]),
   ("cardiology", ["cardiology", "heart", "cardiovascular", "ecg", "troponin", "cardiac"]),
   ("radiology", ["radiology", "x-ray", "xray", "ct scan", "mri", "imaging", "radiographic"]),
   ("oncology", ["oncology", "cancer", "tumor", "tumour", "malignancy"]),
   ("pulmonology", ["pulmonology", "lung", "pneumonia", "respiratory", "pulmonary"]),
   ("ophthalmology", ["ophthalmology", "eye", "retinal", "retina", "diabetic retinopathy"]),
   ("pathology", ["pathology", "histopathology", "biopsy"])]

/-- The condition-keyword taxonomy of `ContextManager._extract_from_input`. -/
def conditionKeywords : List (String × List String) :=
  [("melanoma", ["melanoma", "skin cancer"]),
   ("heart disease", ["heart disease", "cardiovascular disease", "cardiac", "heart failure"]),
   ("pneumonia", ["pneumonia", "lung infection"]),
   ("acne", ["acne"]),
   ("eczema", ["eczema", "atopic dermatitis"]),
   ("diabetic retinopathy", ["diabetic retinopathy", "retinopathy"])]

/-- First taxonomy entry one of whose keywords occurs in the lower-cased input. -/
def findFirstMatch (table : List (String × List String)) (lower : String) : Option String :=
  ((table.find? (fun fk => fk.2.any (fun k => strHas lower k))).map Prod.fst)

/-- Time-range extraction branch of `_extract_from_input`. -/
def extractTimeRange (lower : String) : Option Nat :=
  if ["5 years", "past 5", "last 5", "5 year"].any (fun x => strHas lower x) then some 5
  else if ["3 years", "past 3", "last 3", "3 year"].any (fun x => strHas lower x) then some 3
  else if ["10 years", "past 10", "last 10", "10 year"].any (fun x => strHas lower x) then some 10
  else if ["recent", "latest", "current"].any (fun x => strHas lower x) then some 3
  else none

/-- Bias-aspect extraction branch of `_extract_from_input` (appends, no duplicates). -/
def updateAspects (aspects : List String) (lower : String) : List String :=
  let a1 :=
    if (strHas lower "data imbalance" || strHas lower "data representation")
        && !(aspects.contains "data imbalance")
    then aspects ++ ["data imbalance"] else aspects
  let a2 :=
    if strHas lower "diagnostic bias" && !(a1.contains "diagnostic bias")
    then a1 ++ ["diagnostic bias"] else a1
  if strHas lower "performance" && strHas lower "gap" && !(a2.contains "performance gaps")
  then a2 ++ ["performance gaps"] else a2

/-- `ContextManager._extract_from_input`: best-effort keyword extraction;
fields already set are left unchanged. -/
def extractFromInput (ctx : ConvContext) (userInput : String) : ConvContext :=
  let lower := pyLower userInput
  { ctx with
    medical_field := match ctx.medical_field with
      | some f => some f
      | none => findFirstMatch fieldKeywords lower
    specific_condition := match ctx.specific_condition with
      | some c => some c
      | none => findFirstMatch conditionKeywords lower
    time_range := match ctx.time_range with
      | some t => some t
      | none => extractTimeRange lower
    bias_aspects := updateAspects ctx.bias_aspects lower }

/-- `ContextManager.update_context(user_input)` as called by `handle_message`:
append the user message to the history, then extract. -/
def updateContext (ctx : ConvContext) (userInput : String) : ConvContext :=
  extractFromInput { ctx with history := ctx.history ++ [("user", userInput)] } userInput

/-- `ContextManager.has_sufficient_context`: only `medical_field` is required. -/
def hasSufficientContext (ctx : ConvContext) : Bool := ctx.medical_field.isSome

/-! ## Intent predicates (`conversation_handler.py`) -/

def paperPhrases : List String :=
  ["show", "list", "provide", "give", "find", "recommend", "suggest", "share", "see"]

def paperTerms : List String :=
  ["paper", "study", "research", "citation", "publication", "article"]

/-- The paper-request test repeated at every site in `conversation_handler.py`:
a retrieval phrase combined with a paper term, or a bare plural form. -/
def isPaperRequest (lower : String) : Bool :=
  (paperPhrases.any (fun phrase => strHas lower phrase)
      && paperTerms.any (fun term => strHas lower term))
    || ["papers", "studies", "research papers", "recent papers"].any (fun term => strHas lower term)

/-- `ConversationHandler._is_analysis_request`. -/
def isAnalysisRequest (ctx : ConvContext) (lower : String) : Bool :=
  if isPaperRequest lower then false
  else if (["bias", "areas", "under-explored"].any (fun k => strHas lower k))
      && (["find", "identify", "help", "what", "where"].any (fun q => strHas lower q)) then true
  else if strHas lower "gaps" && !(isPaperRequest lower)
      && (["find", "identify", "help", "what", "where", "analyze"].any (fun q => strHas lower q)) then true
  else
    (["analyze", "find", "identify", "look at", "examine", "check",
      "help", "can you", "areas", "bias"].any (fun k => strHas lower k))
    && hasSufficientContext ctx

/-- `ConversationHandler._is_mitigation_request`. -/
def isMitigationRequest (lower : String) : Bool :=
  if isPaperRequest lower then false
  else if strHas lower "address" && !(isPaperRequest lower)
      && (["paper", "study", "research", "that address"].any (fun term => strHas lower term)) then false
  else
    ["mitigation", "method", "solution", "address", "reduce", "fix", "improve"].any
      (fun k => strHas lower k)

/-- `ConversationHandler._is_follow_up`. -/
def isFollowUp (lower : String) : Bool :=
  (["what", "how", "why", "when", "where", "can you", "show me", "tell me",
    "can we", "talk about", "tell me about", "explain", "more about",
    "what about", "discuss", "elaborate"].any (fun k => strStarts lower k))
    || (["talk more", "more about", "tell me more", "can we talk"].any (fun p => strHas lower p))

/-- `ConversationHandler._extract_medical_field_llm`: the raw LLM reply (or the
exception it raised) arrives as an `Except` parameter; the handler strips,
lower-cases and validates it against the seven-field vocabulary. -/
def extractFieldFromLLM (llmResp : Except String String) : Option String :=
  match llmResp with
  | Except.error _ => none
  | Except.ok resp =>
    let field := pyLower (pyStrip resp)
    if ["dermatology", "cardiology", "radiology", "oncology", "pulmonology",
        "ophthalmology", "pathology"].contains field
    then some field else none

/-! ## Routing outcome of `handle_message` -/

/-- Outcome of `ConversationHandler._default_response`. -/
inductive DRoute
  | performAnalysis
  | menu
  | askField
deriving DecidableEq

/-- Terminal action taken inside `ConversationHandler._handle_follow_up`. -/
inductive FRoute
  | papers
  | dataImbalance
  | performance
  | mitigation
  | concerningReply
  | howCanIMitigation
  | papersFallback
  | llmFallback
deriving DecidableEq

/-- Terminal action taken by one `ConversationHandler.handle_message` call,
tagged with the branch that produced it. -/
inductive Route
  | analysisDirect
  | analysisAll
  | analysisAfterExtract
  | askField
  | analysisRequested
  | papers
  | mitigation
  | followUp (r : FRoute)
  | yesMitigationHistory
  | yesMitigationAnalysis
  | yesDefault (d : DRoute)
  | topicPapers
  | topicDataImbalance
  | topicPerformance
  | topicDefault (d : DRoute)
  | defaultR (d : DRoute)
deriving DecidableEq

/-- Which routes end in a call to `_provide_mitigation_recommendations`. -/
def Route.takesMitigationPath : Route → Bool
  | Route.mitigation => true
  | Route.followUp FRoute.mitigation => true
  | Route.followUp FRoute.howCanIMitigation => true
  | Route.yesMitigationHistory => true
  | Route.yesMitigationAnalysis => true
  | _ => false

/-- `ConversationHandler._default_response`. -/
def defaultRoute (ctx : ConvContext) (analysisPresent : Bool) : DRoute :=
  if hasSufficientContext ctx && !analysisPresent then DRoute.performAnalysis
  else if hasSufficientContext ctx then DRoute.menu
  else DRoute.askField

/-- `ConversationHandler._handle_follow_up` (routing only; each terminal LLM
call is a leaf label). -/
def followUpRoute (analysisPresent : Bool) (lower : String) : FRoute :=
  if analysisPresent && isPaperRequest lower then FRoute.papers
  else if analysisPresent
      && (["data imbalance", "data representation", "dataset", "race label"].any
            (fun term => strHas lower term)) then FRoute.dataImbalance
  else if analysisPresent && !(paperTerms.any (fun term => strHas lower term))
      && (["performance", "subgroup", "accuracy", "gap"].any (fun term => strHas lower term)) then
    FRoute.performance
  else if analysisPresent
      && (["mitigation", "fairness", "method", "solution"].any (fun term => strHas lower term)) then
    FRoute.mitigation
  else if (strHas lower "concerning" || strHas lower thatsWord) && analysisPresent then
    FRoute.concerningReply
  else if (strHas lower "what can i" || strHas lower "how can i")
      && (strHas lower "focus" || strHas lower "study" || strHas lower "reduce") then
    FRoute.howCanIMitigation
  else if isPaperRequest lower && analysisPresent then FRoute.papersFallback
  else FRoute.llmFallback

/-- `conversation_history[-2].get("content", "")`. -/
def histSecondLast (h : List (String × String)) : String :=
  ((h.get? (h.length - 2)).map Prod.snd).getD ""

/-- The explicit deferral tokens of `handle_message` line 76. -/
def deferralWords : List String := ["wait", "not yet", dontWord, "no", "later"]

/-- `ConversationHandler.handle_message`, reduced to the route it takes.
`analysisPresent` is the truthiness of `self.analysis_results`; `llmResp` is
the reply of (or exception raised by) the LLM call inside
`_extract_medical_field_llm`.  Metrics tracking is observational only and is
omitted. -/
def handleMessageRoute (ctx0 : ConvContext) (analysisPresent : Bool)
    (llmResp : Except String String) (userInput : String) : Route :=
  let ctx := updateContext ctx0 userInput
  let lower := pyLower userInput
  if hasSufficientContext ctx && !analysisPresent
      && !(deferralWords.any (fun word => strHas lower word)) then
    Route.analysisDirect
  else if (strHas lower "all of them" || strHas lower "all")
      && ctx.medical_field.isSome && !analysisPresent then
    Route.analysisAll
  else if !(hasSufficientContext ctx) then
    match extractFieldFromLLM llmResp with
    | some _ => Route.analysisAfterExtract
    | none => Route.askField
  else if isAnalysisRequest ctx lower then Route.analysisRequested
  else if analysisPresent && isPaperRequest lower then Route.papers
  else if isMitigationRequest lower then Route.mitigation
  else if isFollowUp lower then Route.followUp (followUpRoute analysisPresent lower)
  else if ["yes", "y", "yeah", "sure", "please"].contains lower then
    if ctx.history.length > 1 && strHas (pyLower (histSecondLast ctx.history)) "mitigation" then
      Route.yesMitigationHistory
    else if analysisPresent then Route.yesMitigationAnalysis
    else Route.yesDefault (defaultRoute ctx analysisPresent)
  else if analysisPresent then
    if isPaperRequest lower then Route.topicPapers
    else if ["data imbalance", "data representation", "dataset"].any
        (fun term => strHas lower term) then Route.topicDataImbalance
    else if ["performance", "subgroup", "gap"].any (fun term => strHas lower term) then
      Route.topicPerformance
    else Route.topicDefault (defaultRoute ctx analysisPresent)
  else Route.defaultR (defaultRoute ctx analysisPresent)

/-! ## The perform-analysis transition (`conversation_handler.py` lines 299-330) -/

/-- The stored `self.analysis_results` dict. -/
structure AnalysisResult where
  scope : String
  years : Nat
  dataset_analysis : DatasetAnalysis
  subgroup_analysis : SubgroupAnalysis
  mitigation_analysis : MitigationAnalysis
  score_results : ScoreResult
deriving DecidableEq

/-- Response of `_perform_analysis`: the formatted analysis on success, the
apology string built from the caught exception otherwise. -/
inductive AnalysisResponse
  | formatted (sr : ScoreResult)
  | apology (msg : String)
deriving DecidableEq

/-- `ConversationHandler._perform_analysis`.  The three provider calls arrive
as `Except`-valued parameters (an `error` is a raised exception); the body
mirrors the `try` block: the calls run in order, scoring follows, and
`self.analysis_results` is assigned only after everything succeeded, so the
first failure aborts the transition with `prev` untouched. -/
def performAnalysisStep (scorer : BiasScorer) (prev : Option AnalysisResult)
    (scope : String) (years : Nat)
    (dsR : Except String DatasetAnalysis) (sgR : Except String SubgroupAnalysis)
    (mitR : Except String MitigationAnalysis) :
    Option AnalysisResult × AnalysisResponse :=
  match dsR with
  | Except.error e => (prev, AnalysisResponse.apology e)
  | Except.ok dataset_analysis =>
    match sgR with
    | Except.error e => (prev, AnalysisResponse.apology e)
    | Except.ok subgroup_analysis =>
      match mitR with
      | Except.error e => (prev, AnalysisResponse.apology e)
      | Except.ok mitigation_analysis =>
        let score_results :=
          compute_bias_score scorer dataset_analysis subgroup_analysis mitigation_analysis
        (some ⟨scope, years, dataset_analysis, subgroup_analysis, mitigation_analysis,
               score_results⟩,
         AnalysisResponse.formatted score_results)

/-! ## Derived definitions used by the statements -/

/-- The scorer as `ConversationHandler.__init__` builds it:
`BiasScorer(weights=SCORE_WEIGHTS, threshold=BIAS_SCORE_THRESHOLD)`. -/
def defaultScorer : BiasScorer := ⟨SCORE_WEIGHTS, BIAS_SCORE_THRESHOLD⟩

/-- The six dimension names in their fixed declaration order. -/
def DIMENSIONS : List String :=
  ["race_label_availability", "dark_skin_representation", "subgroup_metrics",
   "geographic_concentration", "fairness_method_coverage", "external_validation"]

/-- Position of a dimension name in the declaration order. -/
def declIndex (k : String) : Nat := DIMENSIONS.findIdx (fun d => d == k)

/-- The order the drivers list must respect: strictly descending score, with
ties broken by the fixed declaration order of the dimensions. -/
def DriverOrder (a b : String × ℚ) : Prop :=
  a.2 > b.2 ∨ (a.2 = b.2 ∧ declIndex a.1 < declIndex b.1)

/-! ## Concrete inputs used by witnesses and counterexamples -/

def exDatasetZero : DatasetAnalysis := ⟨none⟩

def exSubgroupZero : SubgroupAnalysis := ⟨none, none⟩

def exMitigationZero : MitigationAnalysis := ⟨none, none⟩

/-- Scenario input of the spec (2 of 10 datasets labelled, 10% dark-skin
representation, high geographic diversity). -/
def exDatasetC7 : DatasetAnalysis := ⟨some ⟨some 10, some 2, some (10/100), none, some "high"⟩⟩

def exSubgroupC7 : SubgroupAnalysis := ⟨some ⟨some 10, some 10⟩, some 0⟩

def exMitigationC7 : MitigationAnalysis := ⟨some ⟨some 10, some 10, some 10⟩, some ⟨some "high"⟩⟩

/-- 3 of 7 datasets labelled: the race-label ratio 4/7 makes the weighted sum
3/35, which has no exact 3-decimal representation. -/
def exDatasetC1 : DatasetAnalysis := ⟨some ⟨some 7, some 3, some (25/100), none, some "high"⟩⟩

def exSubgroupC1 : SubgroupAnalysis := ⟨some ⟨some 7, some 7⟩, some 0⟩

def exMitigationC1 : MitigationAnalysis := ⟨some ⟨some 7, some 7, some 7⟩, some ⟨some "high"⟩⟩

/-- More labelled datasets (20) than datasets (10). -/
def exDatasetC4 : DatasetAnalysis := ⟨some ⟨some 10, some 20, none, none, none⟩⟩

/-- More studies with fairness methods (20) than studies (10). -/
def exMitigationC4 : MitigationAnalysis := ⟨some ⟨some 10, some 20, some 0⟩, none⟩

/-- A dataset summary with counts but with both representation metrics absent. -/
def exDatasetC9 : DatasetAnalysis := ⟨some ⟨some 5, some 3, none, none, some "low"⟩⟩

/-- A session that already knows the medical field and has no analysis yet. -/
def exCtxDerm : ConvContext := ⟨some "dermatology", none, none, [], []⟩

/-- An utterance combining paper vocabulary ("find", "study"/"studies") with
mitigation vocabulary ("address") and a deferral token ("later"). -/
def exPaperMitigationUtterance : String := "how can i find a study that address this later"

/-! ## Helper lemmas -/

theorem mem_insertDesc {x p : String × ℚ} {l : List (String × ℚ)} :
    x ∈ insertDesc p l ↔ x = p ∨ x ∈ l := by
  induction l with
  | nil => simp [insertDesc]
  | cons q rest ih =>
    simp only [insertDesc]
    split
    · simp only [List.mem_cons, ih]
      tauto
    · simp only [List.mem_cons]

theorem DriverOrder.score_le {a b : String × ℚ} (h : DriverOrder a b) : b.2 ≤ a.2 := by
  rcases h with h | ⟨h, _⟩
  · exact le_of_lt h
  · exact le_of_eq h.symm

theorem pairwise_insertDesc {p : String × ℚ} {l : List (String × ℚ)}
    (hl : l.Pairwise DriverOrder) (hp : ∀ x ∈ l, declIndex x.1 < declIndex p.1) :
    (insertDesc p l).Pairwise DriverOrder := by
  induction l with
  | nil => simp [insertDesc, List.pairwise_cons]
  | cons q rest ih =>
    rw [List.pairwise_cons] at hl
    obtain ⟨hq, hrest⟩ := hl
    simp only [insertDesc]
    split
    · rename_i hge
      rw [List.pairwise_cons]
      refine ⟨?_, ih hrest (fun x hx => hp x (List.mem_cons_of_mem _ hx))⟩
      intro y hy
      rcases mem_insertDesc.mp hy with rfl | hy'
      · rcases lt_or_eq_of_le hge with hlt | heq
        · exact Or.inl hlt
        · exact Or.inr ⟨heq.symm, hp q (List.mem_cons_self _ _)⟩
      · exact hq y hy'
    · rename_i hlt
      rw [List.pairwise_cons]
      refine ⟨?_, List.pairwise_cons.mpr ⟨hq, hrest⟩⟩
      intro y hy
      rcases List.mem_cons.mp hy with rfl | hy'
      · exact Or.inl (lt_of_not_ge hlt)
      · exact Or.inl (lt_of_le_of_lt (hq y hy').score_le (lt_of_not_ge hlt))

theorem mem_stableSortDesc_core (l : List (String × ℚ)) :
    ∀ (acc : List (String × ℚ)) (x : String × ℚ),
      x ∈ l.foldl (fun a p => insertDesc p a) acc ↔ x ∈ acc ∨ x ∈ l := by
  induction l with
  | nil => simp
  | cons p rest ih =>
    intro acc x
    simp only [List.foldl_cons]
    rw [ih, mem_insertDesc]
    simp only [List.mem_cons]
    tauto

theorem mem_stableSortDesc {x : String × ℚ} {l : List (String × ℚ)} :
    x ∈ stableSortDesc l ↔ x ∈ l := by
  unfold stableSortDesc
  rw [mem_stableSortDesc_core]
  simp

theorem pairwise_stableSortDesc_core (l : List (String × ℚ)) :
    ∀ acc : List (String × ℚ),
      acc.Pairwise DriverOrder →
      (∀ p ∈ l, ∀ x ∈ acc, declIndex x.1 < declIndex p.1) →
      l.Pairwise (fun a b => declIndex a.1 < declIndex b.1) →
      (l.foldl (fun a p => insertDesc p a) acc).Pairwise DriverOrder := by
  induction l with
  | nil =>
    intro acc hacc _ _
    simpa using hacc
  | cons p rest ih =>
    intro acc hacc hcross hl
    rw [List.pairwise_cons] at hl
    simp only [List.foldl_cons]
    apply ih
    · exact pairwise_insertDesc hacc (fun x hx => hcross p (List.mem_cons_self _ _) x hx)
    · intro q hq x hx
      rcases mem_insertDesc.mp hx with rfl | hx'
      · exact hl.1 q hq
      · exact hcross q (List.mem_cons_of_mem _ hq) x hx'
    · exact hl.2

theorem pairwise_stableSortDesc {l : List (String × ℚ)}
    (hl : l.Pairwise (fun a b => declIndex a.1 < declIndex b.1)) :
    (stableSortDesc l).Pairwise DriverOrder :=
  pairwise_stableSortDesc_core l [] List.Pairwise.nil (by simp) hl

theorem breakdown_declIndex_pairwise (da : DatasetAnalysis) (sa : SubgroupAnalysis)
    (ma : MitigationAnalysis) :
    (breakdownList da sa ma).Pairwise (fun a b => declIndex a.1 < declIndex b.1) := by
  unfold breakdownList
  refine List.Pairwise.cons ?_ (List.Pairwise.cons ?_ (List.Pairwise.cons ?_
    (List.Pairwise.cons ?_ (List.Pairwise.cons ?_
      (List.Pairwise.cons (by simp) List.Pairwise.nil))))) <;>
  · intro b hb
    fin_cases hb <;> dsimp only <;> decide

/-! ## Claim theorems -/

/-- Claim C3: whenever the relevant total count of a findings dictionary is
zero (`total_datasets` for the race-label dimension, `total_studies` for the
subgroup-metrics, fairness-method and external-validation dimensions), the
corresponding ratio-based component scoring function returns exactly 1.0. -/
theorem total_zero_scores_one :
    (∀ da : DatasetAnalysis, da.getSummary.total_datasets.getD 0 = 0 →
        compute_race_label_score da = 1) ∧
    (∀ sa : SubgroupAnalysis, sa.getSummary.total_studies.getD 0 = 0 →
        compute_subgroup_metrics_score sa = 1) ∧
    (∀ ma : MitigationAnalysis, ma.getSummary.total_studies.getD 0 = 0 →
        compute_fairness_method_score ma = 1) ∧
    (∀ ma : MitigationAnalysis, ma.getSummary.total_studies.getD 0 = 0 →
        compute_external_validation_score ma = 1) := by
  refine ⟨?_, ?_, ?_, ?_⟩ <;> intro x h <;>
    simp [compute_race_label_score, compute_subgroup_metrics_score,
      compute_fairness_method_score, compute_external_validation_score, h]

/-- Witness for C3 at concrete all-empty findings dictionaries. -/
theorem total_zero_scores_one_w :
    compute_race_label_score exDatasetZero = 1 ∧
    compute_subgroup_metrics_score exSubgroupZero = 1 ∧
    compute_fairness_method_score exMitigationZero = 1 ∧
    compute_external_validation_score exMitigationZero = 1 :=
  ⟨total_zero_scores_one.1 exDatasetZero (by decide),
   total_zero_scores_one.2.1 exSubgroupZero (by decide),
   total_zero_scores_one.2.2.1 exMitigationZero (by decide),
   total_zero_scores_one.2.2.2 exMitigationZero (by decide)⟩

/-- Claim C4: the component scorers are claimed (by the spec and by the
functions' own docstrings) to return values in [0, 1] for every input,
including `with_X > total`.  The code only clamps from above: with 20 labelled
datasets out of 10 the race-label score evaluates to -1, and likewise for the
fairness-method score, contradicting the documented range. -/
theorem component_score_below_zero_eval :
    compute_race_label_score exDatasetC4 = -1 ∧
    compute_fairness_method_score exMitigationC4 = -1 := by
  constructor
  · norm_num [compute_race_label_score, exDatasetC4, DatasetAnalysis.getSummary, min_def]
  · norm_num [compute_fairness_method_score, exMitigationC4, MitigationAnalysis.getSummary, min_def]

/-- Claim C9: when a dataset summary carries neither `avg_dark_skin_proportion`
nor `avg_minority_representation`, the dark-skin-representation score is
exactly 1.0 (the absent minority metric defaults to 0.0, the maximal gap
against the 0.25 target), regardless of `total_datasets`. -/
theorem dark_skin_score_absent_metrics (da : DatasetAnalysis)
    (h1 : da.getSummary.avg_dark_skin_proportion = none)
    (h2 : da.getSummary.avg_minority_representation = none) :
    compute_dark_skin_representation_score da = 1 := by
  simp [compute_dark_skin_representation_score, h1, h2]

/-- Witness for C9 at a dataset summary with counts but no representation metrics. -/
theorem dark_skin_score_absent_metrics_w :
    compute_dark_skin_representation_score exDatasetC9 = 1 :=
  dark_skin_score_absent_metrics exDatasetC9 (by decide) (by decide)

/-- Claim C2 (amended): for every NONEMPTY explicitly supplied weights
mapping, `BiasScorer` construction succeeds when the value sum is within 0.01
of 1.0 and raises `ValueError` when it deviates by more than 0.01.  (The empty
mapping is excluded: Python's `weights or SCORE_WEIGHTS` treats it as falsy
and silently substitutes the default weights — see the counterexample.) -/
theorem nonempty_weights_validation (w : List (String × ℚ)) (hw : w ≠ []) :
    ((|(w.map Prod.snd).sum - 1| ≤ 1/100) →
        BiasScorer.init (some w) none = Except.ok ⟨w, BIAS_SCORE_THRESHOLD⟩) ∧
    ((|(w.map Prod.snd).sum - 1| > 1/100) →
        BiasScorer.init (some w) none = Except.error "Weights must sum to 1.0") := by
  have hne : w.isEmpty = false := by
    cases w
    · exact absurd rfl hw
    · rfl
  constructor
  · intro h
    simp [BiasScorer.init, hne]
    simpa using h
  · intro h
    simp [BiasScorer.init, hne]
    simpa using h

/-- Witness for the amended C2 at a concrete singleton weight table. -/
theorem nonempty_weights_validation_w :
    BiasScorer.init (some [("race_label_availability", (1:ℚ))]) none
      = Except.ok ⟨[("race_label_availability", 1)], BIAS_SCORE_THRESHOLD⟩ :=
  (nonempty_weights_validation _ (by simp)).1 (by norm_num)

/-- Counterexample to C2 as stated: the explicitly supplied empty weights
mapping sums to 0 (deviation 1 > 0.01), yet construction succeeds, because
Python's `weights or SCORE_WEIGHTS` replaces any falsy dict by the default. -/
theorem empty_weights_accepted_cex :
    |((([] : List (String × ℚ)).map Prod.snd).sum - 1)| > 1/100 ∧
    BiasScorer.init (some []) none = Except.ok ⟨SCORE_WEIGHTS, BIAS_SCORE_THRESHOLD⟩ := by
  constructor
  · norm_num
  · norm_num [BiasScorer.init, SCORE_WEIGHTS, BIAS_SCORE_THRESHOLD]

/-- Claim C1 (amended): for every weights table accepted at construction and
all findings, the `score` field equals the weighted sum over the six
dimensions ROUNDED TO THREE DECIMAL PLACES (the source applies
`round(total_score, 3)` before storing it); the unrounded invariant fails —
see the counterexample. -/
theorem score_eq_round3_weighted_sum (w : List (String × ℚ)) (s : BiasScorer)
    (_hs : BiasScorer.init (some w) none = Except.ok s)
    (da : DatasetAnalysis) (sa : SubgroupAnalysis) (ma : MitigationAnalysis) :
    (compute_bias_score s da sa ma).score
      = round3 (weighted_sum s.weights (compute_bias_score s da sa ma).breakdown) := by
  rfl

/-- Witness for the amended C1 at the default weight table and concrete findings. -/
theorem score_eq_round3_weighted_sum_w :
    (compute_bias_score defaultScorer exDatasetC7 exSubgroupC7 exMitigationC7).score
      = round3 (weighted_sum defaultScorer.weights
          (compute_bias_score defaultScorer exDatasetC7 exSubgroupC7 exMitigationC7).breakdown) :=
  score_eq_round3_weighted_sum SCORE_WEIGHTS defaultScorer
    (by norm_num [BiasScorer.init, SCORE_WEIGHTS, defaultScorer, BIAS_SCORE_THRESHOLD])
    exDatasetC7 exSubgroupC7 exMitigationC7

/-- Counterexample to C1 as stated: with the default weights (accepted at
construction) and 3 of 7 datasets labelled, the weighted sum is 3/35, whose
3-decimal rounding 0.086 differs from it, so the stored `score` is NOT the
weighted sum of the breakdown. -/
theorem score_rounding_cex :
    BiasScorer.init (some SCORE_WEIGHTS) (some (30/100)) = Except.ok defaultScorer ∧
    (compute_bias_score defaultScorer exDatasetC1 exSubgroupC1 exMitigationC1).score
      ≠ weighted_sum defaultScorer.weights
          (compute_bias_score defaultScorer exDatasetC1 exSubgroupC1 exMitigationC1).breakdown := by
  have hhigh : diversityMapGet "high" = 0 := by decide
  have hb : (compute_bias_score defaultScorer exDatasetC1 exSubgroupC1 exMitigationC1).breakdown
      = [("race_label_availability", 4/7), ("dark_skin_representation", 0),
         ("subgroup_metrics", 0), ("geographic_concentration", 0),
         ("fairness_method_coverage", 0), ("external_validation", 0)] := by
    show breakdownList exDatasetC1 exSubgroupC1 exMitigationC1 = _
    norm_num [breakdownList, compute_race_label_score, compute_dark_skin_representation_score,
      compute_subgroup_metrics_score, compute_geographic_concentration_score,
      compute_fairness_method_score, compute_external_validation_score, hhigh,
      exDatasetC1, exSubgroupC1, exMitigationC1, DatasetAnalysis.getSummary,
      SubgroupAnalysis.getSummary, MitigationAnalysis.getSummary, MitigationAnalysis.getValidation,
      TARGET_DARK_SKIN_PROPORTION, min_def]
  have hsc : (compute_bias_score defaultScorer exDatasetC1 exSubgroupC1 exMitigationC1).score
      = round3 (weighted_sum defaultScorer.weights
          (compute_bias_score defaultScorer exDatasetC1 exSubgroupC1 exMitigationC1).breakdown) := by
    rfl
  refine ⟨by norm_num [BiasScorer.init, SCORE_WEIGHTS, defaultScorer, BIAS_SCORE_THRESHOLD], ?_⟩
  rw [hsc, hb]
  have hws : weighted_sum defaultScorer.weights
      [(("race_label_availability" : String), (4/7 : ℚ)), ("dark_skin_representation", 0),
       ("subgroup_metrics", 0), ("geographic_concentration", 0),
       ("fairness_method_coverage", 0), ("external_validation", 0)] = 3/35 := by
    norm_num [weighted_sum, dictGet, defaultScorer, SCORE_WEIGHTS, List.find?]
  rw [hws]
  norm_num [round3, roundHalfEven]

/-- Claim C7: with default weights, 2 labelled datasets of 10 give
race-label score 0.8; a 10% dark-skin proportion against the 25% target gives
dark-skin score 0.6; whenever these are the only two non-zero breakdown
dimensions the overall score is 0.8*0.15 + 0.6*0.25 = 0.27 and the result is
not flagged against the default threshold 0.30. -/
theorem scenario_twentyseven :
    compute_race_label_score exDatasetC7 = 4/5 ∧
    compute_dark_skin_representation_score exDatasetC7 = 3/5 ∧
    (∀ (da : DatasetAnalysis) (sa : SubgroupAnalysis) (ma : MitigationAnalysis),
      compute_race_label_score da = 4/5 →
      compute_dark_skin_representation_score da = 3/5 →
      compute_subgroup_metrics_score sa = 0 →
      compute_geographic_concentration_score da ma = 0 →
      compute_fairness_method_score ma = 0 →
      compute_external_validation_score ma = 0 →
      (compute_bias_score defaultScorer da sa ma).score = 27/100 ∧
      (compute_bias_score defaultScorer da sa ma).flagged = false) := by
  refine ⟨?_, ?_, ?_⟩
  · norm_num [compute_race_label_score, exDatasetC7, DatasetAnalysis.getSummary, min_def]
  · norm_num [compute_dark_skin_representation_score, exDatasetC7, DatasetAnalysis.getSummary,
      TARGET_DARK_SKIN_PROPORTION, min_def]
  · intro da sa ma h1 h2 h3 h4 h5 h6
    have hb : breakdownList da sa ma
        = [("race_label_availability", 4/5), ("dark_skin_representation", 3/5),
           ("subgroup_metrics", 0), ("geographic_concentration", 0),
           ("fairness_method_coverage", 0), ("external_validation", 0)] := by
      simp [breakdownList, h1, h2, h3, h4, h5, h6]
    have e1 : ("race_label_availability" == "dark_skin_representation") = false := by decide
    have hws : weighted_sum defaultScorer.weights (breakdownList da sa ma) = 27/100 := by
      rw [hb]
      norm_num [weighted_sum, dictGet, defaultScorer, SCORE_WEIGHTS, List.find?, e1]
    constructor
    · have hsc : (compute_bias_score defaultScorer da sa ma).score
          = round3 (weighted_sum defaultScorer.weights (breakdownList da sa ma)) := by rfl
      rw [hsc, hws]
      norm_num [round3, roundHalfEven]
    · have hf : (compute_bias_score defaultScorer da sa ma).flagged
          = decide (weighted_sum defaultScorer.weights (breakdownList da sa ma)
              ≥ defaultScorer.threshold) := by rfl
      rw [hf, hws]
      simp [defaultScorer, BIAS_SCORE_THRESHOLD]
      norm_num

/-- Witness for C7 at concrete findings realizing its hypotheses. -/
theorem scenario_twentyseven_w :
    (compute_bias_score defaultScorer exDatasetC7 exSubgroupC7 exMitigationC7).score = 27/100 ∧
    (compute_bias_score defaultScorer exDatasetC7 exSubgroupC7 exMitigationC7).flagged = false :=
  scenario_twentyseven.2.2 exDatasetC7 exSubgroupC7 exMitigationC7
    (by norm_num [compute_race_label_score, exDatasetC7, DatasetAnalysis.getSummary, min_def])
    (by norm_num [compute_dark_skin_representation_score, exDatasetC7, DatasetAnalysis.getSummary,
      TARGET_DARK_SKIN_PROPORTION, min_def])
    (by norm_num [compute_subgroup_metrics_score, exSubgroupC7, SubgroupAnalysis.getSummary, min_def])
    (by have h : diversityMapGet "high" = 0 := by decide
        norm_num [compute_geographic_concentration_score, exDatasetC7, exMitigationC7,
          DatasetAnalysis.getSummary, MitigationAnalysis.getValidation, h])
    (by norm_num [compute_fairness_method_score, exMitigationC7, MitigationAnalysis.getSummary, min_def])
    (by norm_num [compute_external_validation_score, exMitigationC7, MitigationAnalysis.getSummary, min_def])

/-- Claim C5: for every findings triple the drivers list has length at most
3, every entry is a breakdown entry whose dimension score is strictly greater
than 0.5, and entries are in descending score order with ties resolved by the
fixed declaration order of the six dimensions (stable sort). -/
theorem drivers_sorted_bounded (s : BiasScorer) (da : DatasetAnalysis)
    (sa : SubgroupAnalysis) (ma : MitigationAnalysis) :
    (compute_bias_score s da sa ma).drivers.length ≤ 3 ∧
    (∀ p ∈ (compute_bias_score s da sa ma).drivers,
        p.2 > 1/2 ∧ p ∈ (compute_bias_score s da sa ma).breakdown) ∧
    (compute_bias_score s da sa ma).drivers.Pairwise DriverOrder := by
  have hd : (compute_bias_score s da sa ma).drivers
      = ((stableSortDesc (breakdownList da sa ma)).take 3).filter
          (fun p => decide (p.2 > 1/2)) := by rfl
  have hbk : (compute_bias_score s da sa ma).breakdown = breakdownList da sa ma := by rfl
  rw [hd, hbk]
  refine ⟨?_, ?_, ?_⟩
  · refine le_trans (List.length_filter_le _ _) ?_
    rw [List.length_take]
    exact min_le_left _ _
  · intro p hp
    rw [List.mem_filter] at hp
    refine ⟨of_decide_eq_true hp.2, ?_⟩
    exact mem_stableSortDesc.mp (List.mem_of_mem_take hp.1)
  · exact (pairwise_stableSortDesc (breakdown_declIndex_pairwise da sa ma)).sublist
      ((List.filter_sublist _).trans (List.take_sublist _ _))

/-- Witness for C5 at concrete findings. -/
theorem drivers_sorted_bounded_w :
    (compute_bias_score defaultScorer exDatasetZero exSubgroupZero exMitigationZero).drivers.length ≤ 3 ∧
    (∀ p ∈ (compute_bias_score defaultScorer exDatasetZero exSubgroupZero exMitigationZero).drivers,
        p.2 > 1/2 ∧
        p ∈ (compute_bias_score defaultScorer exDatasetZero exSubgroupZero exMitigationZero).breakdown) ∧
    (compute_bias_score defaultScorer exDatasetZero exSubgroupZero exMitigationZero).drivers.Pairwise
      DriverOrder :=
  drivers_sorted_bounded defaultScorer exDatasetZero exSubgroupZero exMitigationZero

/-- Claim C8: if any of the three provider calls of the perform-analysis
transition raises, the handler returns the apology response and the stored
`analysis_results` is exactly what it was before the call (assignment happens
only after all three calls and scoring succeeded).  In this embedding the
scorer itself is a total function, so the provider calls are the only failure
sources. -/
theorem analysis_failure_leaves_results (scorer : BiasScorer) (prev : Option AnalysisResult)
    (scope : String) (years : Nat)
    (dsR : Except String DatasetAnalysis) (sgR : Except String SubgroupAnalysis)
    (mitR : Except String MitigationAnalysis)
    (h : (∃ e, dsR = Except.error e) ∨ (∃ e, sgR = Except.error e) ∨ (∃ e, mitR = Except.error e)) :
    (performAnalysisStep scorer prev scope years dsR sgR mitR).1 = prev ∧
    ∃ msg, (performAnalysisStep scorer prev scope years dsR sgR mitR).2
        = AnalysisResponse.apology msg := by
  rcases h with ⟨e, rfl⟩ | ⟨e, rfl⟩ | ⟨e, rfl⟩
  · exact ⟨rfl, e, rfl⟩
  · cases dsR with
    | error e2 => exact ⟨rfl, e2, rfl⟩
    | ok ds => exact ⟨rfl, e, rfl⟩
  · cases dsR with
    | error e2 => exact ⟨rfl, e2, rfl⟩
    | ok ds =>
      cases sgR with
      | error e2 => exact ⟨rfl, e2, rfl⟩
      | ok sg => exact ⟨rfl, e, rfl⟩

/-- Witness for C8: a failing first provider call with no prior result. -/
theorem analysis_failure_leaves_results_w :
    (performAnalysisStep defaultScorer none "dermatology" 5
        (Except.error "boom") (Except.ok exSubgroupZero) (Except.ok exMitigationZero)).1 = none ∧
    ∃ msg, (performAnalysisStep defaultScorer none "dermatology" 5
        (Except.error "boom") (Except.ok exSubgroupZero) (Except.ok exMitigationZero)).2
        = AnalysisResponse.apology msg :=
  analysis_failure_leaves_results defaultScorer none "dermatology" 5 _ _ _ (Or.inl ⟨"boom", rfl⟩)

/-- Updating the context never clears an already-known medical field. -/
theorem hasSufficient_update (ctx : ConvContext) (u : String)
    (h : ctx.medical_field.isSome = true) :
    hasSufficientContext (updateContext ctx u) = true := by
  obtain ⟨f, hf⟩ := Option.isSome_iff_exists.mp h
  simp [hasSufficientContext, updateContext, extractFromInput, hf]

/-- Counterexample to C6 as stated: in the state where the medical field is
known but no AnalysisResult exists, the utterance
"how can i find a study that address this later" (paper vocabulary: "find" +
"study"; mitigation vocabulary: "address"; the deferral token "later" keeps
the proactive-analysis branch from firing) is routed by the follow-up handler
to `_provide_mitigation_recommendations`, so the mitigation path IS taken. -/
theorem paper_mitigation_followup_cex :
    isPaperRequest exPaperMitigationUtterance = true ∧
    strHas exPaperMitigationUtterance "address" = true ∧
    Route.takesMitigationPath
      (handleMessageRoute exCtxDerm false (Except.error "") exPaperMitigationUtterance) = true ∧
    handleMessageRoute exCtxDerm false (Except.error "") exPaperMitigationUtterance
      = Route.followUp FRoute.howCanIMitigation := by
  decide

/-- Claim C6 (amended): `_is_mitigation_request` itself never classifies an
utterance with paper vocabulary as a mitigation request, and in every
conversation state in which an AnalysisResult exists and the medical field is
known such an utterance routes to the paper-request branch; but when no
AnalysisResult exists the follow-up handler can still reach the mitigation
path (see the counterexample). -/
theorem paper_request_priority_amended (ctx : ConvContext) (llm : Except String String)
    (u : String)
    (hf : ctx.medical_field.isSome = true)
    (hp : isPaperRequest (pyLower u) = true)
    (_hm : ["mitigation", "method", "solution", "address", "reduce", "fix", "improve"].any
        (fun k => strHas (pyLower u) k) = true) :
    handleMessageRoute ctx true llm u = Route.papers ∧
    isMitigationRequest (pyLower u) = false := by
  have hsuff := hasSufficient_update ctx u hf
  constructor
  · simp [handleMessageRoute, isAnalysisRequest, hsuff, hp]
  · simp [isMitigationRequest, hp]

/-- Witness for the amended C6 on the claim's own example utterance. -/
theorem paper_request_priority_amended_w :
    handleMessageRoute exCtxDerm true (Except.error "") "show me papers that address this"
      = Route.papers ∧
    isMitigationRequest (pyLower "show me papers that address this") = false :=
  paper_request_priority_amended exCtxDerm (Except.error "") "show me papers that address this"
    (by decide) (by decide) (by decide)

/-- Claim C10: a deferral token does not actually prevent analysis within the
same call — when the medical field is known, no AnalysisResult exists, the
utterance contains a deferral token and matches neither the "all" rule nor
the analysis-, paper-, mitigation-, follow-up- or affirmation-rules,
`handle_message` falls through to the default response, which performs the
analysis anyway. -/
theorem deferral_performs_analysis_anyway (ctx : ConvContext) (llm : Except String String)
    (u : String)
    (hf : ctx.medical_field.isSome = true)
    (hdef : deferralWords.any (fun w => strHas (pyLower u) w) = true)
    (hall : (strHas (pyLower u) "all of them" || strHas (pyLower u) "all") = false)
    (har : isAnalysisRequest (updateContext ctx u) (pyLower u) = false)
    (_hpr : isPaperRequest (pyLower u) = false)
    (hmr : isMitigationRequest (pyLower u) = false)
    (hfu : isFollowUp (pyLower u) = false)
    (hyes : (["yes", "y", "yeah", "sure", "please"].contains (pyLower u)) = false) :
    handleMessageRoute ctx false llm u = Route.defaultR DRoute.performAnalysis := by
  have hsuff := hasSufficient_update ctx u hf
  have hyes2 : ¬(pyLower u = "yes" ∨ pyLower u = "y" ∨ pyLower u = "yeah" ∨ pyLower u = "sure"
      ∨ pyLower u = "please") := by
    simpa using hyes
  simp [handleMessageRoute, defaultRoute, hsuff, hdef, hall, har, hmr, hfu, hyes2]

/-- Witness for C10 on the utterance "no, wait". -/
theorem deferral_performs_analysis_anyway_w :
    handleMessageRoute exCtxDerm false (Except.error "") "no, wait"
      = Route.defaultR DRoute.performAnalysis :=
  deferral_performs_analysis_anyway exCtxDerm (Except.error "") "no, wait"
    (by decide) (by decide) (by decide) (by decide) (by decide) (by decide) (by decide) (by decide)
